import Mathlib

/-!
Verification development for the mobile-env smart-city simulation core
(mobile_env/core/base.py, mobile_env/core/entities.py).

The Python code is shallowly embedded: machine floats are modelled as exact
rationals, Python dictionaries keyed by entity objects become functions out of
the entity types, Python sets become finite sets, and a raised exception
becomes an `Except` value or an explicit outcome constructor.  Code of the
repository living in modules that are not part of the provided sources
(channel model, scheduler, job generator, movement and arrival collaborators)
is either taken as an explicit function parameter or modelled from the
specification text, as indicated in each doc comment.  Distances are compared
through their squares, which agrees with comparing the square roots.
-/

namespace MobileEnv

/-- Embedding of `entities.BaseStation` (entities.py lines 6-30) together with
the `computational_power` attribute that base.py reads on station objects
(configured in `default_config` under the key `bs`).  Only the fields the
simulation core reads are kept; positions and resources are exact rationals. -/
structure BaseStation where
  bs_id : ℕ
  x : ℚ
  y : ℚ
  bw : ℚ
  computational_power : ℚ
deriving DecidableEq, Repr

/-- Embedding of `entities.UserEquipment` (entities.py lines 33-60) restricted
to the immutable identity fields the connectivity logic reads.  The mutable
position of a user equipment is passed separately (see `connect_bs_ue`),
because the Python code mutates `ue.x, ue.y` in place each step. -/
structure UserEquipment where
  ue_id : ℕ
  snr_threshold : ℚ
deriving DecidableEq, Repr

/-- Embedding of `entities.Sensor` (entities.py lines 62-88): identity, the
fixed planar position (sensors never move, their configured velocity is 0)
and the SNR threshold. -/
structure Sensor where
  sensor_id : ℕ
  x : ℚ
  y : ℚ
  snr_threshold : ℚ
deriving DecidableEq, Repr

/-- The exception raised by `MComCore.apply_action` (base.py line 512) is a
Python `ValueError` carrying the message that allocations must be between
0 and 1; the specification taxonomy calls this failure `InvalidActionError`. -/
inductive MError where
  | valueError
deriving DecidableEq, Repr

/-- Embedding of `MComCore.apply_action` (base.py lines 509-525).  The guard is
the Python test `0 <= bandwidth_allocation <= 1 and 0 <= computational_allocation <= 1`;
on success the four returned pool sizes are `bs.bw * r`, `bs.bw * (1 - r)` and
the analogous products with `bs.computational_power`. -/
def apply_action (bs : BaseStation)
    (bandwidth_allocation computational_allocation : ℚ) :
    Except MError (ℚ × ℚ × ℚ × ℚ) :=
  if 0 ≤ bandwidth_allocation ∧ bandwidth_allocation ≤ 1 ∧
      0 ≤ computational_allocation ∧ computational_allocation ≤ 1 then
    .ok (bs.bw * bandwidth_allocation,
         bs.bw * (1 - bandwidth_allocation),
         bs.computational_power * computational_allocation,
         bs.computational_power * (1 - computational_allocation))
  else
    .error .valueError

/-- The connection dictionary `self.connections` of base.py (a defaultdict from
stations to sets of user equipments); a station absent from the dictionary is
an empty set. -/
abbrev Conns := BaseStation → Finset UserEquipment

/-- The sensor connection dictionary `self.connections_sensor` of base.py. -/
abbrev ConnsSensor := BaseStation → Finset Sensor

/-- Squared Euclidean distance between a planar point and a base station, as
computed in `connect_bs_ue` and `connect_bs_sensor` (base.py lines 569, 590);
the Python code compares square roots, which orders the same way. -/
def sq_distance (px py : ℚ) (bs : BaseStation) : ℚ :=
  (px - bs.x) ^ 2 + (py - bs.y) ^ 2

/-- One comparison of the minimum-distance loop in `connect_bs_ue`
(base.py lines 567-573): the candidate replaces the current best only on a
strictly smaller distance, so the earliest station wins ties. -/
def pick_closer (px py : ℚ) (best bs : BaseStation) : BaseStation :=
  if sq_distance px py bs < sq_distance px py best then bs else best

/-- The loop state of `connect_bs_ue`: `closest_bs` starts as None with the
minimum distance at infinity, so the first station always becomes the best. -/
def closer (px py : ℚ) (acc : Option BaseStation) (bs : BaseStation) :
    Option BaseStation :=
  match acc with
  | none => some (bs)
  | some best => some (pick_closer px py best bs)

/-- The full minimum-distance loop of `connect_bs_ue` (base.py lines 563-573):
the nearest station in iteration order, `none` when there is no station. -/
def closest_bs (stations : List BaseStation) (px py : ℚ) : Option BaseStation :=
  stations.foldl (closer px py) none

/-- `self.connections[closest_bs].add(ue)` (base.py lines 576-579). -/
def add_conn (conns : Conns) (cbs : BaseStation) (ue : UserEquipment) : Conns :=
  fun bs => if bs = cbs then insert ue (conns bs) else conns bs

/-- Embedding of `MComCore.connect_bs_ue` (base.py lines 560-579): every user
equipment is added to the connection set of its nearest station.  `pos` gives
the current planar position of each user equipment by its id (the Python code
reads the mutable fields `ue.x, ue.y`).  Note that the code never removes the
device from the sets of other stations here. -/
def connect_bs_ue (stations : List BaseStation) (users : List UserEquipment)
    (pos : ℕ → ℚ × ℚ) (conns : Conns) : Conns :=
  users.foldl
    (fun cs ue =>
      match closest_bs stations (pos ue.ue_id).1 (pos ue.ue_id).2 with
      | none => cs
      | some cbs => add_conn cs cbs ue)
    conns

/-- `self.connections_sensor[closest_bs].add(sensor)` (base.py lines 599-601). -/
def add_conn_sensor (conns : ConnsSensor) (cbs : BaseStation) (sn : Sensor) :
    ConnsSensor :=
  fun bs => if bs = cbs then insert sn (conns bs) else conns bs

/-- Embedding of `MComCore.connect_bs_sensor` (base.py lines 581-601), the
sensor analogue of `connect_bs_ue` with the fixed sensor positions. -/
def connect_bs_sensor (stations : List BaseStation) (sensors : List Sensor)
    (conns : ConnsSensor) : ConnsSensor :=
  sensors.foldl
    (fun cs sn =>
      match closest_bs stations sn.x sn.y with
      | none => cs
      | some cbs => add_conn_sensor cs cbs sn)
    conns

/-- Embedding of `MComCore.update_connections` (base.py lines 542-549): every
(station, user) pair is kept exactly when `check_connectivity` holds, i.e.
when `snr(bs, ue) > ue.snr_threshold` (base.py lines 527-530).  The channel
model (channels.py) is not among the provided sources, so the SNR is an
explicit function parameter. -/
def update_connections (snr : BaseStation → UserEquipment → ℚ)
    (conns : Conns) : Conns :=
  fun bs => (conns bs).filter (fun ue => ue.snr_threshold < snr bs ue)

/-- Embedding of `MComCore.update_connections_sensors` (base.py lines 551-558),
the sensor analogue of `update_connections`. -/
def update_connections_sensors (snrS : BaseStation → Sensor → ℚ)
    (conns : ConnsSensor) : ConnsSensor :=
  fun bs => (conns bs).filter (fun sn => sn.snr_threshold < snrS bs sn)

/-- The connectivity update of one step for user equipments, in the order of
`MComCore.step` (base.py lines 609, 613): nearest-station assignment first,
SNR pruning second. -/
def step_connectivity (stations : List BaseStation) (users : List UserEquipment)
    (pos : ℕ → ℚ × ℚ) (snr : BaseStation → UserEquipment → ℚ)
    (conns : Conns) : Conns :=
  update_connections snr (connect_bs_ue stations users pos conns)

/-- The four pool sizes stored per station in `self.resource_allocations[bs]`
(base.py lines 642-647). -/
structure Alloc where
  bandwidth_for_ues : ℚ
  bandwidth_for_sensors : ℚ
  computational_power_for_ues : ℚ
  computational_power_for_sensors : ℚ
deriving DecidableEq, Repr

/-- Embedding of the allocation loop of `MComCore.step` (base.py lines
637-647): `apply_action` is called for every station in order, all with the
SAME two scalars, and each result is stored in `resource_allocations[bs]`.
The second component of the result is the value of the Python loop variables
`bandwidth_for_ues` etc. after the loop has finished: the allocation of the
LAST station, or `none` when there is no station (in which case the Python
code would later raise a NameError on reading the undefined loop variables). -/
def step_alloc_loop (stations : List BaseStation) (b c : ℚ) :
    Except MError (List (BaseStation × Alloc) × Option Alloc) :=
  stations.foldlM
    (fun acc bs => do
      let r ← apply_action bs b c
      let a : Alloc := ⟨r.1, r.2.1, r.2.2.1, r.2.2.2⟩
      pure (acc.1 ++ [(bs, a)], some a))
    (([], none) : List (BaseStation × Alloc) × Option Alloc)

/-- The bandwidth pool that step() passes to `station_allocation` for EVERY
station (base.py line 655): the loop variable `bandwidth_for_ues` is read
after the allocation loop has ended, so it holds the ue-bandwidth pool of the
last station, independent of the station currently being scheduled. -/
def scheduling_pool_ue (stations : List BaseStation) (b c : ℚ) :
    Except MError (Option ℚ) :=
  (step_alloc_loop stations b c).map (fun r => r.2.map Alloc.bandwidth_for_ues)

/-- The bandwidth pool that step() passes to `station_allocation_sensor` for
every station (base.py line 660): again the leaked loop variable of the last
station. -/
def scheduling_pool_sensor (stations : List BaseStation) (b c : ℚ) :
    Except MError (Option ℚ) :=
  (step_alloc_loop stations b c).map
    (fun r => r.2.map Alloc.bandwidth_for_sensors)

/-- The ue compute pool that step() passes once to `process_data_mec`
(base.py line 680): the leaked loop variable of the last station. -/
def processing_pool_ue (stations : List BaseStation) (b c : ℚ) :
    Except MError (Option ℚ) :=
  (step_alloc_loop stations b c).map
    (fun r => r.2.map Alloc.computational_power_for_ues)

/-- The sensor compute pool that step() passes once to `process_data_mec`
(base.py line 680): the leaked loop variable of the last station. -/
def processing_pool_sensor (stations : List BaseStation) (b c : ℚ) :
    Except MError (Option ℚ) :=
  (step_alloc_loop stations b c).map
    (fun r => r.2.map Alloc.computational_power_for_sensors)

/-- A job in an uplink buffer.  Spec §3: identity, creation timestep, total
and remaining communication and computation demands, and the two completion
timestamps, null until set. -/
structure Job where
  job_id : ℕ
  creation_time : ℚ
  total_comm_demand : ℚ
  remaining_comm_demand : ℚ
  total_comp_demand : ℚ
  remaining_comp_demand : ℚ
  transferred_time : Option ℚ
  accomplished_time : Option ℚ
deriving DecidableEq, Repr

/-- The mutable simulation state touched by the head of `MComCore.step`:
simulation time, the two connection dictionaries, the uplink buffers of user
equipments and sensors (keyed by id), and the job counter of the generator. -/
structure SimState where
  time : ℚ
  conns : Conns
  connsSensor : ConnsSensor
  ueBuffers : ℕ → List Job
  sensorBuffers : ℕ → List Job
  jobCounter : ℕ

/-- Modelled from the spec: `JobGenerator.generate_job_ue` lives in
job_generator.py, which is not among the provided sources.  Spec §4.5: each
step, for every UE, a Bernoulli trial is drawn with the configured
probability; on success a job with sampled communication and computation
demands (remaining = total), null timestamps and creation timestep = current
time is appended to the uplink buffer of the device.  The random draw and the
sampled demand sizes are passed in explicitly. -/
def generate_job_ue (t : ℚ) (counter : ℕ) (draw : Bool) (commD compD : ℚ)
    (buf : List Job) : List Job × ℕ :=
  if draw then
    (buf ++ [⟨counter, t, commD, commD, compD, compD, none, none⟩], counter + 1)
  else
    (buf, counter)

/-- Modelled from the spec: `JobGenerator.generate_job_sensor` lives in
job_generator.py, which is not among the provided sources.  Spec §4.5: sensors
generate a job deterministically every step (no Bernoulli gate), with
sensor-specific demand sizes, passed in explicitly. -/
def generate_job_sensor (t : ℚ) (counter : ℕ) (commD compD : ℚ)
    (buf : List Job) : List Job × ℕ :=
  (buf ++ [⟨counter, t, commD, commD, compD, compD, none, none⟩], counter + 1)

/-- One iteration of the ue job generation loop of step()
(base.py lines 619-620). -/
def gen_ue_step (draw : ℕ → Bool) (uComm uComp : ℕ → ℚ)
    (st : SimState) (ue : UserEquipment) : SimState :=
  let r := generate_job_ue st.time st.jobCounter (draw ue.ue_id)
    (uComm ue.ue_id) (uComp ue.ue_id) (st.ueBuffers ue.ue_id)
  { st with
    ueBuffers := fun i => if i = ue.ue_id then r.1 else st.ueBuffers i
    jobCounter := r.2 }

/-- One iteration of the sensor job generation loop of step()
(base.py lines 621-622). -/
def gen_sensor_step (sComm sComp : ℕ → ℚ)
    (st : SimState) (sn : Sensor) : SimState :=
  let r := generate_job_sensor st.time st.jobCounter
    (sComm sn.sensor_id) (sComp sn.sensor_id) (st.sensorBuffers sn.sensor_id)
  { st with
    sensorBuffers := fun i => if i = sn.sensor_id then r.1 else st.sensorBuffers i
    jobCounter := r.2 }

/-- The job generation phase of step() (base.py lines 619-622): all user
equipments in order, then all sensors in order. -/
def gen_jobs_phase (users : List UserEquipment) (sensors : List Sensor)
    (draw : ℕ → Bool) (uComm uComp sComm sComp : ℕ → ℚ)
    (s : SimState) : SimState :=
  sensors.foldl (gen_sensor_step sComm sComp)
    (users.foldl (gen_ue_step draw uComm uComp) s)

/-- The connectivity phase of step() (base.py lines 609-614): nearest-station
assignment for user equipments and sensors, then SNR pruning for both.  The
ue state and the sensor state are disjoint, so the interleaved Python order
(connect ue, connect sensor, prune ue, prune sensor) equals this grouping. -/
def connectivity_phase (stations : List BaseStation)
    (users : List UserEquipment) (sensors : List Sensor)
    (pos : ℕ → ℚ × ℚ) (snr : BaseStation → UserEquipment → ℚ)
    (snrS : BaseStation → Sensor → ℚ) (s : SimState) : SimState :=
  { s with
    conns := step_connectivity stations users pos snr s.conns
    connsSensor :=
      update_connections_sensors snrS
        (connect_bs_sensor stations sensors s.connsSensor) }

/-- Outcome of a call to step(): the assert on a terminated episode
(base.py line 604), the ValueError of apply_action (base.py line 512), or
normal continuation into the rest of the pipeline. -/
inductive StepOutcome where
  | assertFailed
  | valueError
  | proceeds
deriving DecidableEq, Repr

/-- Embedding of the head of `MComCore.step` (base.py lines 603-647): first the
assert `not self.time_is_up` (line 604, raising before any mutation, with
`time_is_up = time >= min(EP_MAX_TIME, max_departure)`, lines 805-808), then
the connectivity update (lines 609-614), then job generation (lines 619-622),
then the handler maps the action to the two scalars (line 630; spec §6
describes the action as the two scalars themselves, so this is the identity),
and then the allocation loop, whose first `apply_action` call raises
ValueError when a ratio is outside `[0,1]` (lines 638-640 with line 511).
The loop calls `apply_action` once per station with the same two scalars, so
for at least one station the step raises exactly when a ratio is out of range;
the degenerate case of zero stations, where Python would instead raise a
NameError further down, is outside the claims.  The returned state is the
state of the environment object at the moment the outcome is determined; the
later pipeline stages that run in the `proceeds` case are outside this
embedding and the returned state is then the state just after job
generation. -/
def step_check (stations : List BaseStation)
    (users : List UserEquipment) (sensors : List Sensor)
    (pos : ℕ → ℚ × ℚ) (snr : BaseStation → UserEquipment → ℚ)
    (snrS : BaseStation → Sensor → ℚ)
    (draw : ℕ → Bool) (uComm uComp sComm sComp : ℕ → ℚ)
    (ep_max_time max_departure : ℚ) (b c : ℚ)
    (s : SimState) : StepOutcome × SimState :=
  if s.time ≥ min ep_max_time max_departure then
    (.assertFailed, s)
  else
    let s2 := gen_jobs_phase users sensors draw uComm uComp sComm sComp
      (connectivity_phase stations users sensors pos snr snrS s)
    if 0 ≤ b ∧ b ≤ 1 ∧ 0 ≤ c ∧ c ≤ 1 then
      (.proceeds, s2)
    else
      (.valueError, s2)

/-- Ordered insertion by ascending ue id, used to model the Python
`sorted(..., key=lambda ue: ue.ue_id)` calls of reset() and step(). -/
def insert_by_id (ue : UserEquipment) :
    List UserEquipment → List UserEquipment
  | [] => [ue]
  | v :: vs =>
    if ue.ue_id ≤ v.ue_id then ue :: v :: vs else v :: insert_by_id ue vs

/-- Insertion sort by ascending ue id. -/
def sort_by_id (l : List UserEquipment) : List UserEquipment :=
  l.foldr insert_by_id []

/-- The initial state produced by `MComCore.reset`, restricted to the fields
claim C4 speaks about: simulation time, per-device initial positions and
arrival and departure times (keyed by ue id), the sorted active lists, the
connection dictionaries, the uplink buffers, the job counter, the delayed
packet counters and the derived departure horizon. -/
structure EnvState where
  time : ℚ
  positions : List (ℕ × (ℚ × ℚ))
  stimes : List (ℕ × ℤ)
  extimes : List (ℕ × ℤ)
  active : List ℕ
  active_sensor : List ℕ
  conns : Conns
  connsSensor : ConnsSensor
  ueBuffers : ℕ → List Job
  sensorBuffers : ℕ → List Job
  jobCounter : ℕ
  delayed_ue_jobs : ℕ
  delayed_sensor_jobs : ℕ
  max_departure : Option ℤ

/-- Ordered insertion by ascending sensor id. -/
def insert_sensor_by_id (sn : Sensor) : List Sensor → List Sensor
  | [] => [sn]
  | v :: vs =>
    if sn.sensor_id ≤ v.sensor_id then sn :: v :: vs
    else v :: insert_sensor_by_id sn vs

/-- Insertion sort of sensors by ascending id. -/
def sort_sensors_by_id (l : List Sensor) : List Sensor :=
  l.foldr insert_sensor_by_id []

/-- Embedding of `MComCore.reset` (base.py lines 334-507) on the state of
`EnvState`.  Every one of these fields is unconditionally re-derived by the
Python code: time is set to 0.0 (line 339), all uplink and station queues are
cleared (lines 363-373), the job counter is zeroed (line 379), arrival and
departure times and initial positions are re-drawn per device (lines
382-388), the active lists are rebuilt and sorted (lines 391-395), the
connection dictionaries are replaced by empty defaultdicts (lines 398-400),
the delayed packet counters are zeroed (lines 421-422) and the departure
horizon is recomputed (line 483; Python `max` on an empty sequence raises, so
the horizon is an `Option`).  Modelled from the spec: the arrival and
movement collaborators (arrival.py, movement.py) are not among the provided
sources; spec §6 says they supply `arrival(ue)`, `departure(ue)` and
`initial_position(ue)`, re-consulted at every reset, so they are modelled as
deterministic functions of the device.  The incoming state is ignored
entirely, which is the verified content of claim C4. -/
def reset (users : List UserEquipment) (sensors : List Sensor)
    (arrival departure : UserEquipment → ℤ)
    (initial_position : UserEquipment → ℚ × ℚ)
    (_s : EnvState) : EnvState :=
  { time := 0
    positions := users.map (fun ue => (ue.ue_id, initial_position ue))
    stimes := users.map (fun ue => (ue.ue_id, arrival ue))
    extimes := users.map (fun ue => (ue.ue_id, departure ue))
    active :=
      (sort_by_id (users.filter (fun ue => arrival ue ≤ 0))).map
        UserEquipment.ue_id
    active_sensor := (sort_sensors_by_id sensors).map Sensor.sensor_id
    conns := fun _ => ∅
    connsSensor := fun _ => ∅
    ueBuffers := fun _ => []
    sensorBuffers := fun _ => []
    jobCounter := 0
    delayed_ue_jobs := 0
    delayed_sensor_jobs := 0
    max_departure := (users.map departure).max? }

/-- A row of the packet dataframes kept by the job generator and read by
`check_packet_delays`: creation time, the applicable end-to-end delay
threshold, the accomplished flag and the accomplished time. -/
structure Packet where
  creation_time : ℚ
  e2e_delay_threshold : ℚ
  is_accomplished : Bool
  accomplished_time : ℚ
deriving DecidableEq, Repr

/-- The dataframe filter of `check_packet_delays` (base.py lines 864-867):
rows that are accomplished and were accomplished at the current time. -/
def accomplished_at (t : ℚ) (df : List Packet) : List Packet :=
  df.filter (fun p => p.is_accomplished && decide (p.accomplished_time = t))

/-- The delay column computed on the filtered rows (base.py line 871):
current time minus creation time. -/
def packet_delay (t : ℚ) (p : Packet) : ℚ :=
  t - p.creation_time

/-- The delayed count of `check_packet_delays` (base.py line 872): among the
rows accomplished at the current time, those whose delay strictly exceeds
their threshold. -/
def delayed_packets (t : ℚ) (df : List Packet) : ℕ :=
  ((accomplished_at t df).filter
    (fun p => decide (p.e2e_delay_threshold < packet_delay t p))).length

/-- Embedding of `MComCore.check_packet_delays` (base.py lines 860-891):
returns the per-step delayed ue and sensor counts and the two updated
per-episode counters (`self.delayed_ue_jobs += ...`,
`self.delayed_sensor_jobs += ...`).  The empty-frame branch of the Python
code, which returns 0 and leaves the counter unchanged, coincides with the
general formula because the count over an empty frame is 0. -/
def check_packet_delays (t : ℚ) (dfUE dfSensor : List Packet)
    (delayed_ue_jobs delayed_sensor_jobs : ℕ) : ℕ × ℕ × ℕ × ℕ :=
  let du := delayed_packets t dfUE
  let ds := delayed_packets t dfSensor
  (du, ds, delayed_ue_jobs + du, delayed_sensor_jobs + ds)

/-- The specification reading of a delayed packet at time `t`: accomplished at
exactly `t`, with end-to-end delay `t - creation_time` strictly above the
threshold (spec §4.7). -/
def delayed_spec (t : ℚ) (p : Packet) : Bool :=
  p.is_accomplished && decide (p.accomplished_time = t) &&
    decide (p.e2e_delay_threshold < t - p.creation_time)

/-! Concrete instances used by the counterexamples and witnesses. -/

/-- A station at the origin. -/
def bsA : BaseStation := ⟨0, 0, 0, 100, 100⟩

/-- A station at (10, 0). -/
def bsB : BaseStation := ⟨1, 10, 0, 100, 100⟩

/-- A station with bandwidth 100 and compute capacity 50. -/
def bsSmall : BaseStation := ⟨0, 0, 0, 100, 50⟩

/-- A station with bandwidth 200 and compute capacity 80. -/
def bsBig : BaseStation := ⟨1, 10, 0, 200, 80⟩

/-- A user equipment with SNR threshold 0. -/
def ue0 : UserEquipment := ⟨0, 0⟩

/-- Position map placing every user equipment at (1, 0). -/
def pos1 : ℕ → ℚ × ℚ := fun _ => (1, 0)

/-- Position map placing every user equipment at (9, 0). -/
def pos2 : ℕ → ℚ × ℚ := fun _ => (9, 0)

/-- A channel giving SNR 1 to every pair, above the threshold of `ue0`. -/
def snr_one : BaseStation → UserEquipment → ℚ := fun _ _ => 1

/-- A sensor channel giving SNR 1 to every pair. -/
def snrS_one : BaseStation → Sensor → ℚ := fun _ _ => 1

/-- A Bernoulli stream that never generates a ue job. -/
def drawF : ℕ → Bool := fun _ => false

/-- Constant demand size 1. -/
def cOne : ℕ → ℚ := fun _ => 1

/-- The empty ue connection dictionary. -/
def noConns : Conns := fun _ => ∅

/-- The connections after two connectivity updates in which `ue0` first sits
at (1, 0), nearest to `bsA`, and then has moved to (9, 0), nearest to `bsB`,
with the SNR always above its threshold. -/
def c2_conns : Conns :=
  step_connectivity [bsA, bsB] [ue0] pos2 snr_one
    (step_connectivity [bsA, bsB] [ue0] pos1 snr_one noConns)

/-- The fresh simulation state before a step: time 0, no connection, empty
buffers, job counter 0. -/
def s0 : SimState :=
  ⟨0, fun _ => ∅, fun _ => ∅, fun _ => [], fun _ => [], 0⟩

/-- The run of claim C3: step at time 0 (well before the horizon 100) with
bandwidth ratio 2 on one station, one user equipment, no sensor, and a
Bernoulli stream that generates no job. -/
def c3_run : StepOutcome × SimState :=
  step_check [bsA] [ue0] [] pos1 snr_one snrS_one drawF cOne cOne cOne cOne
    100 100 2 0 s0

/-- A simulation state at time 5, used against the horizon min 5 7 = 5. -/
def sT5 : SimState :=
  ⟨5, fun _ => ∅, fun _ => ∅, fun _ => [], fun _ => [], 0⟩

/-! Helper lemmas. -/

/-- Membership after one `add` of the nearest-station loop. -/
theorem mem_add_conn (conns : Conns) (cbs : BaseStation)
    (v ue : UserEquipment) (bs : BaseStation) :
    ue ∈ add_conn conns cbs v bs ↔ ue ∈ conns bs ∨ (ue = v ∧ bs = cbs) := by
  unfold add_conn
  by_cases h : bs = cbs
  · simp only [h, if_pos, Finset.mem_insert]
    tauto
  · simp only [h, if_neg, if_false]
    tauto

/-- Membership after the whole nearest-station loop `connect_bs_ue`: a device
is in the set of a station iff it already was, or it occurs in the user list
and that station is its nearest one. -/
theorem mem_connect_bs_ue (stations : List BaseStation)
    (users : List UserEquipment) (pos : ℕ → ℚ × ℚ) (conns : Conns)
    (bs : BaseStation) (ue : UserEquipment) :
    ue ∈ connect_bs_ue stations users pos conns bs ↔
      ue ∈ conns bs ∨
        (ue ∈ users ∧
          closest_bs stations (pos ue.ue_id).1 (pos ue.ue_id).2 = some bs) := by
  induction users generalizing conns with
  | nil => simp [connect_bs_ue]
  | cons v vs ih =>
    rcases hv : closest_bs stations (pos v.ue_id).1 (pos v.ue_id).2 with _ | cbs
    · have h0 : connect_bs_ue stations (v :: vs) pos conns =
          connect_bs_ue stations vs pos conns := by
        unfold connect_bs_ue
        rw [List.foldl_cons]
        simp only [hv]
      rw [h0, ih]
      constructor
      · rintro (h | ⟨h1, h2⟩)
        · exact Or.inl h
        · exact Or.inr ⟨List.mem_cons_of_mem _ h1, h2⟩
      · rintro (h | ⟨h1, h2⟩)
        · exact Or.inl h
        · rcases List.mem_cons.mp h1 with h1 | h1
          · subst h1
            rw [hv] at h2
            exact absurd h2 (by simp)
          · exact Or.inr ⟨h1, h2⟩
    · have h0 : connect_bs_ue stations (v :: vs) pos conns =
          connect_bs_ue stations vs pos (add_conn conns cbs v) := by
        unfold connect_bs_ue
        rw [List.foldl_cons]
        simp only [hv]
      rw [h0, ih, mem_add_conn]
      constructor
      · rintro ((h | ⟨h1, h2⟩) | ⟨h1, h2⟩)
        · exact Or.inl h
        · subst h1
          refine Or.inr ⟨List.mem_cons_self _ _, ?_⟩
          rw [hv, h2]
        · exact Or.inr ⟨List.mem_cons_of_mem _ h1, h2⟩
      · rintro (h | ⟨h1, h2⟩)
        · exact Or.inl (Or.inl h)
        · rcases List.mem_cons.mp h1 with h1 | h1
          · subst h1
            rw [hv] at h2
            exact Or.inl (Or.inr ⟨rfl, (Option.some.inj h2).symm⟩)
          · exact Or.inr ⟨h1, h2⟩

/-- Membership after the whole connectivity update of one step: the pairs
produced by the nearest-station assignment, restricted to those whose SNR is
strictly above the device threshold. -/
theorem mem_step_conn_aux (stations : List BaseStation)
    (users : List UserEquipment) (pos : ℕ → ℚ × ℚ)
    (snr : BaseStation → UserEquipment → ℚ) (conns : Conns)
    (bs : BaseStation) (ue : UserEquipment) :
    ue ∈ step_connectivity stations users pos snr conns bs ↔
      (ue ∈ conns bs ∨
        (ue ∈ users ∧
          closest_bs stations (pos ue.ue_id).1 (pos ue.ue_id).2 = some bs)) ∧
      ue.snr_threshold < snr bs ue := by
  unfold step_connectivity update_connections
  rw [Finset.mem_filter, mem_connect_bs_ue]

/-- The ue job generation loop leaves the connection dictionary unchanged. -/
theorem foldl_gen_ue_conns (draw : ℕ → Bool) (uComm uComp : ℕ → ℚ) :
    ∀ (l : List UserEquipment) (s : SimState),
      (l.foldl (gen_ue_step draw uComm uComp) s).conns = s.conns := by
  intro l
  induction l with
  | nil => intro s; rfl
  | cons v vs ih =>
    intro s
    rw [List.foldl_cons, ih]
    rfl

/-- The sensor job generation loop leaves the connection dictionary
unchanged. -/
theorem foldl_gen_sensor_conns (sComm sComp : ℕ → ℚ) :
    ∀ (l : List Sensor) (s : SimState),
      (l.foldl (gen_sensor_step sComm sComp) s).conns = s.conns := by
  intro l
  induction l with
  | nil => intro s; rfl
  | cons v vs ih =>
    intro s
    rw [List.foldl_cons, ih]
    rfl

/-- The whole job generation phase leaves the connection dictionary
unchanged. -/
theorem gen_jobs_phase_conns (users : List UserEquipment)
    (sensors : List Sensor) (draw : ℕ → Bool)
    (uComm uComp sComm sComp : ℕ → ℚ) (s : SimState) :
    (gen_jobs_phase users sensors draw uComm uComp sComm sComp s).conns =
      s.conns := by
  unfold gen_jobs_phase
  rw [foldl_gen_sensor_conns, foldl_gen_ue_conns]

/-- The ue job generation loop leaves the simulation time unchanged. -/
theorem foldl_gen_ue_time (draw : ℕ → Bool) (uComm uComp : ℕ → ℚ) :
    ∀ (l : List UserEquipment) (s : SimState),
      (l.foldl (gen_ue_step draw uComm uComp) s).time = s.time := by
  intro l
  induction l with
  | nil => intro s; rfl
  | cons v vs ih =>
    intro s
    rw [List.foldl_cons, ih]
    rfl

/-- The sensor job generation loop leaves the simulation time unchanged. -/
theorem foldl_gen_sensor_time (sComm sComp : ℕ → ℚ) :
    ∀ (l : List Sensor) (s : SimState),
      (l.foldl (gen_sensor_step sComm sComp) s).time = s.time := by
  intro l
  induction l with
  | nil => intro s; rfl
  | cons v vs ih =>
    intro s
    rw [List.foldl_cons, ih]
    rfl

/-- The whole job generation phase leaves the simulation time unchanged. -/
theorem gen_jobs_phase_time (users : List UserEquipment) (sensors : List Sensor)
    (draw : ℕ → Bool) (uComm uComp sComm sComp : ℕ → ℚ) (s : SimState) :
    (gen_jobs_phase users sensors draw uComm uComp sComm sComp s).time =
      s.time := by
  unfold gen_jobs_phase
  rw [foldl_gen_sensor_time, foldl_gen_ue_time]

/-- The connectivity phase leaves the simulation time unchanged. -/
theorem connectivity_phase_time (stations : List BaseStation)
    (users : List UserEquipment) (sensors : List Sensor)
    (pos : ℕ → ℚ × ℚ) (snr : BaseStation → UserEquipment → ℚ)
    (snrS : BaseStation → Sensor → ℚ) (s : SimState) :
    (connectivity_phase stations users sensors pos snr snrS s).time = s.time :=
  rfl

/-- The delayed count computed by the two dataframe filters equals the count
of rows satisfying the one-shot specification predicate. -/
theorem delayed_packets_countP (t : ℚ) (df : List Packet) :
    delayed_packets t df = df.countP (delayed_spec t) := by
  induction df with
  | nil => rfl
  | cons p ps ih =>
    unfold delayed_packets accomplished_at at ih ⊢
    rw [List.countP_cons, List.filter_cons]
    by_cases h1 : (p.is_accomplished && decide (p.accomplished_time = t)) = true
    · rw [if_pos h1, List.filter_cons]
      by_cases h2 : (decide (p.e2e_delay_threshold < packet_delay t p)) = true
      · have hd : delayed_spec t p = true := by
          unfold delayed_spec
          unfold packet_delay at h2
          simp only [Bool.and_eq_true] at h1 ⊢
          exact ⟨h1, h2⟩
        rw [if_pos h2, hd, List.length_cons, ih]
        simp
      · have hd : delayed_spec t p = false := by
          unfold delayed_spec
          unfold packet_delay at h2
          simp only [Bool.and_eq_true, Bool.and_eq_false_iff] at h2 ⊢
          right
          simpa using h2
        rw [if_neg h2, hd, ih]
        simp
    · have hd : delayed_spec t p = false := by
        unfold delayed_spec
        rw [Bool.and_eq_false_iff]
        left
        simpa using h1
      rw [if_neg h1, hd, ih]
      simp

/-! Claim theorems. -/

/-- C1 (code bug): the pools step() actually uses are NOT the per-station
products.  With two stations of bandwidths 100 and 200 and compute capacities
50 and 80 and both ratios 1, the allocation loop stores the correct
per-station pools (the same two scalars applied to every station), but the
bandwidth pool passed to `station_allocation` for EVERY station — including
the first one — is 200, the leaked loop value of the last station, while the
own pool of the first station is 100; likewise the compute pool passed to
`process_data_mec` is 80, not 50. -/
theorem step_pools_use_last_station :
    step_alloc_loop [bsSmall, bsBig] 1 1 =
      .ok ([(bsSmall, ⟨100, 0, 50, 0⟩), (bsBig, ⟨200, 0, 80, 0⟩)],
           some ⟨200, 0, 80, 0⟩) ∧
    scheduling_pool_ue [bsSmall, bsBig] 1 1 = .ok (some 200) ∧
    bsSmall.bw * 1 = 100 ∧
    processing_pool_ue [bsSmall, bsBig] 1 1 = .ok (some 80) ∧
    bsSmall.computational_power * 1 = 50 := by
  refine ⟨?_, ?_, by norm_num [bsSmall], ?_, by norm_num [bsSmall]⟩
  all_goals
    simp [step_alloc_loop, scheduling_pool_ue, processing_pool_ue,
      apply_action, bsSmall, bsBig]
  all_goals rfl

/-- C2 (counterexample): after the second connectivity update, `ue0` is
simultaneously a member of the connection sets of both stations: in the first
step it was assigned to the nearest station `bsA`; in the second step, having
moved nearer to `bsB`, it is added to `bsB` but never removed from `bsA`,
whose SNR is still above the threshold.  This refutes the no-multi-homing
claim. -/
theorem connectivity_multi_homing_cex :
    ue0 ∈ c2_conns bsA ∧ ue0 ∈ c2_conns bsB := by
  have hA1 : ue0 ∈ step_connectivity [bsA, bsB] [ue0] pos1 snr_one noConns bsA :=
    (mem_step_conn_aux [bsA, bsB] [ue0] pos1 snr_one noConns bsA ue0).mpr
      ⟨Or.inr ⟨by simp,
        by norm_num [closest_bs, closer, pick_closer, sq_distance,
          bsA, bsB, ue0, pos1]⟩,
       by norm_num [snr_one, ue0]⟩
  unfold c2_conns
  exact ⟨(mem_step_conn_aux [bsA, bsB] [ue0] pos2 snr_one _ bsA ue0).mpr
            ⟨Or.inl hA1, by norm_num [snr_one, ue0]⟩,
         (mem_step_conn_aux [bsA, bsB] [ue0] pos2 snr_one _ bsB ue0).mpr
            ⟨Or.inr ⟨by simp,
              by norm_num [closest_bs, closer, pick_closer, sq_distance,
                bsA, bsB, ue0, pos2]⟩,
             by norm_num [snr_one, ue0]⟩⟩

/-- C2 (amended): after the connectivity update of a step, a device belongs
to the set of a station iff either it already belonged to it before the step
or that station is its nearest one, and in both cases its SNR to that station
exceeds its threshold.  In particular previous connections with adequate SNR
persist, so a device can be connected to several stations at once. -/
theorem step_connectivity_mem (stations : List BaseStation)
    (users : List UserEquipment) (pos : ℕ → ℚ × ℚ)
    (snr : BaseStation → UserEquipment → ℚ) (conns : Conns)
    (bs : BaseStation) (ue : UserEquipment) :
    ue ∈ step_connectivity stations users pos snr conns bs ↔
      (ue ∈ conns bs ∨
        (ue ∈ users ∧
          closest_bs stations (pos ue.ue_id).1 (pos ue.ue_id).2 = some bs)) ∧
      ue.snr_threshold < snr bs ue :=
  mem_step_conn_aux stations users pos snr conns bs ue

/-- C3 (counterexample): a step called with bandwidth ratio 2 fails with the
ValueError of apply_action, but the simulation state is NOT what it was
before the call: the connectivity update has already run, so `ue0` is now
connected to `bsA` although it was connected to nothing before. -/
theorem step_invalid_action_mutates_cex :
    c3_run.1 = .valueError ∧
    ue0 ∈ c3_run.2.conns bsA ∧
    ue0 ∉ s0.conns bsA := by
  have hrun : c3_run =
      (.valueError,
        gen_jobs_phase [ue0] [] drawF cOne cOne cOne cOne
          (connectivity_phase [bsA] [ue0] [] pos1 snr_one snrS_one s0)) := by
    unfold c3_run step_check
    rw [if_neg (by norm_num [s0]), if_neg (by norm_num)]
  have hconns : c3_run.2.conns =
      step_connectivity [bsA] [ue0] pos1 snr_one s0.conns := by
    rw [hrun]
    show (gen_jobs_phase _ _ _ _ _ _ _ _).conns = _
    rw [gen_jobs_phase_conns]
    rfl
  refine ⟨by rw [hrun], ?_, by simp [s0]⟩
  rw [hconns]
  exact (mem_step_conn_aux [bsA] [ue0] pos1 snr_one s0.conns bsA ue0).mpr
    ⟨Or.inr ⟨by simp,
      by norm_num [closest_bs, closer, pick_closer, sq_distance,
        bsA, ue0, pos1]⟩,
     by norm_num [snr_one, ue0]⟩

/-- C3 (amended): when step() is called before the episode horizon with a
ratio outside `[0,1]`, it fails with ValueError and the remainder of the step
is not executed, but the connectivity update and the job generation of that
step have already mutated the state; the simulation time is unchanged. -/
theorem step_invalid_action_aborts (stations : List BaseStation)
    (users : List UserEquipment) (sensors : List Sensor)
    (pos : ℕ → ℚ × ℚ) (snr : BaseStation → UserEquipment → ℚ)
    (snrS : BaseStation → Sensor → ℚ)
    (draw : ℕ → Bool) (uComm uComp sComm sComp : ℕ → ℚ)
    (ep md b c : ℚ) (s : SimState)
    (ht : s.time < min ep md)
    (hb : ¬ (0 ≤ b ∧ b ≤ 1 ∧ 0 ≤ c ∧ c ≤ 1)) :
    step_check stations users sensors pos snr snrS draw uComm uComp sComm sComp
        ep md b c s =
      (.valueError,
        gen_jobs_phase users sensors draw uComm uComp sComm sComp
          (connectivity_phase stations users sensors pos snr snrS s)) ∧
    (step_check stations users sensors pos snr snrS draw uComm uComp sComm
        sComp ep md b c s).2.time = s.time := by
  have hnot : ¬ s.time ≥ min ep md := not_le.mpr ht
  constructor
  · unfold step_check
    rw [if_neg hnot, if_neg hb]
  · unfold step_check
    rw [if_neg hnot]
    simp only [hb, if_false, if_neg hb]
    rw [gen_jobs_phase_time, connectivity_phase_time]

/-- Witness for the amended C3 at the concrete run of the counterexample. -/
theorem step_invalid_action_aborts_witness :
    (step_check [bsA] [ue0] [] pos1 snr_one snrS_one drawF cOne cOne cOne cOne
        100 100 2 0 s0 =
      (.valueError,
        gen_jobs_phase [ue0] [] drawF cOne cOne cOne cOne
          (connectivity_phase [bsA] [ue0] [] pos1 snr_one snrS_one s0))) ∧
    (step_check [bsA] [ue0] [] pos1 snr_one snrS_one drawF cOne cOne cOne cOne
        100 100 2 0 s0).2.time = s0.time :=
  step_invalid_action_aborts [bsA] [ue0] [] pos1 snr_one snrS_one drawF
    cOne cOne cOne cOne 100 100 2 0 s0 (by norm_num [s0]) (by norm_num)

/-- C4: reset() re-derives every tracked field from the configuration alone
(the incoming mutable state is ignored), so calling reset twice in a row with
the same seed produces the identical initial state both times.  The arrival
and movement collaborators are modelled as deterministic functions of the
device (their sources are not provided); with the same seed the spec says
they re-derive the same values. -/
theorem reset_idempotent (users : List UserEquipment) (sensors : List Sensor)
    (arrival departure : UserEquipment → ℤ)
    (initial_position : UserEquipment → ℚ × ℚ) (s : EnvState) :
    reset users sensors arrival departure initial_position
        (reset users sensors arrival departure initial_position s) =
      reset users sensors arrival departure initial_position s :=
  rfl

/-- C5: the step precondition assert fails exactly when the elapsed time has
reached min(maximum episode time, last departure), and when it fails the
state is returned untouched (the assert precedes every mutation). -/
theorem step_assert_iff (stations : List BaseStation)
    (users : List UserEquipment) (sensors : List Sensor)
    (pos : ℕ → ℚ × ℚ) (snr : BaseStation → UserEquipment → ℚ)
    (snrS : BaseStation → Sensor → ℚ)
    (draw : ℕ → Bool) (uComm uComp sComm sComp : ℕ → ℚ)
    (ep md b c : ℚ) (s : SimState) :
    ((step_check stations users sensors pos snr snrS draw uComm uComp sComm
        sComp ep md b c s).1 = .assertFailed ↔
      s.time ≥ min ep md) ∧
    (s.time ≥ min ep md →
      (step_check stations users sensors pos snr snrS draw uComm uComp sComm
        sComp ep md b c s).2 = s) := by
  unfold step_check
  by_cases h : s.time ≥ min ep md
  · simp [h]
  · rw [if_neg h]
    by_cases hb : 0 ≤ b ∧ b ≤ 1 ∧ 0 ≤ c ∧ c ≤ 1 <;>
      simp [h, hb]

/-- Witness for C5: at time 5 with episode horizon min 5 7 = 5, the step
fails on the precondition and leaves the state untouched. -/
theorem step_assert_iff_witness :
    (step_check [bsA] [ue0] [] pos1 snr_one snrS_one drawF cOne cOne cOne cOne
        5 7 0 0 sT5).1 = .assertFailed ∧
    (step_check [bsA] [ue0] [] pos1 snr_one snrS_one drawF cOne cOne cOne cOne
        5 7 0 0 sT5).2 = sT5 :=
  have h := step_assert_iff [bsA] [ue0] [] pos1 snr_one snrS_one drawF
    cOne cOne cOne cOne 5 7 0 0 sT5
  ⟨h.1.mpr (by norm_num [sT5]), h.2 (by norm_num [sT5])⟩

/-- C6: `apply_action` fails exactly when a ratio lies outside `[0,1]`: the
call returns a value iff both ratios are in `[0,1]`, and raises the
ValueError (the InvalidActionError of the spec taxonomy) iff some ratio is
out of range. -/
theorem apply_action_error_iff (bs : BaseStation) (b c : ℚ) :
    ((∃ v, apply_action bs b c = .ok v) ↔
      (0 ≤ b ∧ b ≤ 1 ∧ 0 ≤ c ∧ c ≤ 1)) ∧
    (apply_action bs b c = .error .valueError ↔
      ¬ (0 ≤ b ∧ b ≤ 1 ∧ 0 ≤ c ∧ c ≤ 1)) := by
  unfold apply_action
  by_cases h : 0 ≤ b ∧ b ≤ 1 ∧ 0 ≤ c ∧ c ≤ 1 <;>
    simp [h]

/-- C7: for in-range ratios, `apply_action` returns exactly the four products
`bs.bw * b`, `bs.bw * (1 - b)`, `bs.computational_power * c` and
`bs.computational_power * (1 - c)`. -/
theorem apply_action_formula (bs : BaseStation) (b c : ℚ)
    (hb0 : 0 ≤ b) (hb1 : b ≤ 1) (hc0 : 0 ≤ c) (hc1 : c ≤ 1) :
    apply_action bs b c =
      .ok (bs.bw * b, bs.bw * (1 - b),
           bs.computational_power * c, bs.computational_power * (1 - c)) := by
  unfold apply_action
  simp [hb0, hb1, hc0, hc1]

/-- Witness for C7: a station with 100 MHz bandwidth (100000000 Hz) and
bandwidth ratio 1 yields a ue bandwidth pool of the full 100 MHz. -/
theorem apply_action_formula_witness :
    apply_action ⟨0, 0, 0, 100000000, 100⟩ 1 0 =
      .ok (100000000 * 1, 100000000 * (1 - 1), 100 * 0, 100 * (1 - 0)) :=
  apply_action_formula ⟨0, 0, 0, 100000000, 100⟩ 1 0
    (by norm_num) (by norm_num) (by norm_num) (by norm_num)

/-- C8: `check_packet_delays` returns, for each of the two dataframes, exactly
the number of jobs accomplished at the current time whose end-to-end delay
(current time minus creation time) strictly exceeds their threshold, and adds
exactly that number to the respective per-episode counter, which therefore
never decreases. -/
theorem check_packet_delays_correct (t : ℚ) (dfUE dfSensor : List Packet)
    (cU cS : ℕ) :
    check_packet_delays t dfUE dfSensor cU cS =
      (dfUE.countP (delayed_spec t), dfSensor.countP (delayed_spec t),
       cU + dfUE.countP (delayed_spec t),
       cS + dfSensor.countP (delayed_spec t)) ∧
    cU ≤ (check_packet_delays t dfUE dfSensor cU cS).2.2.1 ∧
    cS ≤ (check_packet_delays t dfUE dfSensor cU cS).2.2.2 := by
  unfold check_packet_delays
  rw [delayed_packets_countP, delayed_packets_countP]
  exact ⟨rfl, Nat.le_add_right _ _, Nat.le_add_right _ _⟩

/-- C9: within a step, nearest-station assignment runs strictly before SNR
pruning — the connectivity update is the pruning applied to the output of the
assignment — and pruning keeps exactly the pairs with SNR strictly above the
device threshold, so a pair whose SNR equals the threshold is removed. -/
theorem step_connectivity_order_and_pruning (stations : List BaseStation)
    (users : List UserEquipment) (pos : ℕ → ℚ × ℚ)
    (snr : BaseStation → UserEquipment → ℚ) (conns : Conns)
    (bs : BaseStation) (ue : UserEquipment) :
    (step_connectivity stations users pos snr conns bs =
      (connect_bs_ue stations users pos conns bs).filter
        (fun u => u.snr_threshold < snr bs u)) ∧
    (ue ∈ update_connections snr conns bs ↔
      ue ∈ conns bs ∧ snr bs ue > ue.snr_threshold) ∧
    (snr bs ue = ue.snr_threshold → ue ∉ update_connections snr conns bs) := by
  refine ⟨rfl, ?_, ?_⟩
  · unfold update_connections
    rw [Finset.mem_filter]
  · intro h hmem
    unfold update_connections at hmem
    rw [Finset.mem_filter] at hmem
    exact absurd (h ▸ hmem.2) (lt_irrefl _)

/-- Witness for C9: with an SNR that exactly equals the threshold of `ue0`,
the device is removed by the pruning. -/
theorem step_connectivity_order_and_pruning_witness :
    ue0 ∉ update_connections (fun _ _ => (0 : ℚ)) (fun _ => {ue0}) bsA :=
  (step_connectivity_order_and_pruning [] [] pos1 (fun _ _ => (0 : ℚ))
    (fun _ => {ue0}) bsA ue0).2.2 rfl

/-- C10: the four pools returned by `apply_action` conserve the resources of
the station: the two bandwidth pools sum to `bs.bw` and the two compute pools
sum to `bs.computational_power`, exactly, in rational arithmetic. -/
theorem apply_action_conserves (bs : BaseStation) (b c : ℚ)
    (out : ℚ × ℚ × ℚ × ℚ) (h : apply_action bs b c = .ok out) :
    out.1 + out.2.1 = bs.bw ∧
    out.2.2.1 + out.2.2.2 = bs.computational_power := by
  unfold apply_action at h
  by_cases hr : 0 ≤ b ∧ b ≤ 1 ∧ 0 ≤ c ∧ c ≤ 1
  · simp [hr] at h
    subst h
    constructor <;> ring
  · simp [hr] at h

/-- Witness for C10 at a concrete station and ratios. -/
theorem apply_action_conserves_witness :
    (100000000 : ℚ) * (1/4) + 100000000 * (1 - 1/4) = 100000000 ∧
    (100 : ℚ) * (2/5) + 100 * (1 - 2/5) = 100 :=
  apply_action_conserves ⟨0, 0, 0, 100000000, 100⟩ (1/4) (2/5)
    (100000000 * (1/4), 100000000 * (1 - 1/4), 100 * (2/5), 100 * (1 - 2/5))
    (by unfold apply_action; norm_num)

end MobileEnv
